import Mathlib

/-!
Verification of the PDF extraction server (`src/pdf_extractor_server.py`).

The core logic is `extract_text_from_pdf`, a pure function of the outcome of
opening the uploaded bytes as a PDF document.  We embed that outcome as a
`PdfDoc`: either the open step fails with a message, or it yields the ordered
list of per-page extraction outcomes (each page's `extract_text()` either
raises, returns `None`, or returns a string).  The HTTP handler
`extract_pdf_text` is embedded with the third-party collaborators
(`pdfplumber.open`, `secure_filename`) as explicit function parameters and the
timestamp as an explicit argument.
-/

namespace PdfExtractor

/-- Python whitespace characters relevant to `str.strip()` / `str.split()`
(ASCII subset). -/
def isPySpace (c : Char) : Bool :=
  c = ' ' || c = '\t' || c = '\n' || c = '\r' || c = '\x0b' || c = '\x0c'

/-- Python `str.strip()`: remove leading and trailing whitespace. -/
def pyStrip (s : String) : String :=
  (((s.data.dropWhile isPySpace).reverse.dropWhile isPySpace).reverse).asString

/-- Auxiliary for `pySplit`: accumulate the current token (reversed). -/
def pySplitAux : List Char → List Char → List String
  | [], acc => if acc.isEmpty then [] else [acc.reverse.asString]
  | c :: cs, acc =>
    if isPySpace c then
      if acc.isEmpty then pySplitAux cs []
      else acc.reverse.asString :: pySplitAux cs []
    else pySplitAux cs (c :: acc)

/-- Python `str.split()` with no arguments: split on runs of whitespace,
producing no empty tokens. -/
def pySplit (s : String) : List String :=
  pySplitAux s.data []

/-- Python `str.lower()` (ASCII behaviour). -/
def pyLower (s : String) : String :=
  (s.data.map Char.toLower).asString

/-- Python `filename.rsplit('.', 1)[1]`: the substring after the last dot
(the whole string when there is no dot; in the source this is only reached
under the guard `'.' in filename`). -/
def rsplitLastDot (s : String) : String :=
  ((s.data.reverse.takeWhile (fun c => c ≠ '.')).reverse).asString

/-- `MAX_FILE_SIZE = 10 * 1024 * 1024` (line 29). -/
def MAX_FILE_SIZE : Nat := 10 * 1024 * 1024

/-- `ALLOWED_EXTENSIONS = {'pdf'}` (line 30). -/
def ALLOWED_EXTENSIONS : List String := ["pdf"]

/-- `allowed_file` (lines 32-35):
`'.' in filename and filename.rsplit('.', 1)[1].lower() in ALLOWED_EXTENSIONS`. -/
def allowed_file (filename : String) : Bool :=
  filename.data.contains '.' && ALLOWED_EXTENSIONS.contains (pyLower (rsplitLastDot filename))

/-- Outcome of `page.extract_text()` on one page: it raises an exception,
returns `None`, or returns a string. -/
inductive PageOutcome where
  | pageError : PageOutcome
  | pageText : Option String → PageOutcome
  deriving DecidableEq, Repr

/-- Outcome of `pdfplumber.open(io.BytesIO(pdf_file))`: either the open/parse
step raises (with message `msg`), or the document opens with an ordered list
of page outcomes. -/
inductive PdfDoc where
  | openError (msg : String) : PdfDoc
  | opened (pages : List PageOutcome) : PdfDoc
  deriving DecidableEq, Repr

/-- The `metadata` dict of the extraction result (lines 100-107 / 117-124). -/
structure ExtractionMetadata where
  pages : Nat
  characters : Nat
  words : Nat
  extraction_method : String
  quality : String
  extraction_time : String
  deriving DecidableEq, Repr

/-- The dict returned by `extract_text_from_pdf` (lines 97-108 / 113-125):
`error` is present exactly on the failure path. -/
structure ExtractionResult where
  success : Bool
  text : String
  error : Option String
  metadata : ExtractionMetadata
  deriving DecidableEq, Repr

/-- Body of the per-page loop (lines 58-76), for the page with 1-based number
`n`: an erroring page is skipped (`continue`), a `None` or empty text is
skipped, otherwise the text is stripped and, when non-empty, contributes the
block `"\n=== PAGE <n> ===\n\n" ++ cleaned`. -/
def pageBlock : Nat × PageOutcome → Option String
  | (_, PageOutcome.pageError) => Option.none
  | (_, PageOutcome.pageText Option.none) => Option.none
  | (n, PageOutcome.pageText (Option.some t)) =>
    if t = "" then Option.none
    else
      let cleaned := pyStrip t
      if cleaned = "" then Option.none
      else Option.some ("\n=== PAGE " ++ toString n ++ " ===\n\n" ++ cleaned)

/-- The `text_content` list accumulated by the loop (lines 52-76). -/
def text_content (pages : List PageOutcome) : List String :=
  (List.enumFrom 1 pages).filterMap pageBlock

/-- The quality classification (lines 86-93). -/
def qualityOf (char_count : Nat) : String :=
  if char_count > 1000 then "excellent"
  else if char_count > 500 then "good"
  else if char_count > 100 then "poor"
  else "failed"

/-- `extract_text_from_pdf` (lines 37-125), as a function of the document-open
outcome `doc` and the timestamp `now` returned by `datetime.now().isoformat()`. -/
def extract_text_from_pdf (doc : PdfDoc) (now : String) : ExtractionResult :=
  match doc with
  | PdfDoc.openError msg =>
    { success := false
      text := ""
      error := Option.some msg
      metadata :=
        { pages := 0
          characters := 0
          words := 0
          extraction_method := "pdfplumber_failed"
          quality := "failed"
          extraction_time := now } }
  | PdfDoc.opened pages =>
    let full_text := String.intercalate "\n" (text_content pages)
    let word_count := if full_text = "" then 0 else (pySplit full_text).length
    let char_count := full_text.length
    { success := true
      text := full_text
      error := Option.none
      metadata :=
        { pages := pages.length
          characters := char_count
          words := word_count
          extraction_method := "pdfplumber"
          quality := qualityOf char_count
          extraction_time := now } }

/-- An uploaded file as seen by the Flask handler: declared filename and raw
byte content. -/
structure UploadedFile where
  filename : String
  content : List Nat
  deriving DecidableEq, Repr

/-- A POST request to `/extract-pdf-text`: `file = none` models
`'file' not in request.files`. -/
structure PostRequest where
  file : Option UploadedFile
  deriving DecidableEq, Repr

/-- A JSON response body as produced by the handler: `filename` and `metadata`
are present only on the paths that set them. -/
structure ResponseBody where
  success : Bool
  error : Option String
  text : String
  filename : Option String
  metadata : Option ExtractionMetadata
  deriving DecidableEq, Repr

/-- A validation-error body (lines 146-150, 157-161, 166-170, 181-185):
`success=False`, an error string, empty text, no filename, no metadata. -/
def rejectBody (msg : String) : ResponseBody :=
  { success := false
    error := Option.some msg
    text := ""
    filename := Option.none
    metadata := Option.none }

/-- `response_data` construction and status selection (lines 191-205): on
success a 200 response without `error`, on extraction failure a 500 response
carrying the error. -/
def buildResponse (result : ExtractionResult) (fname : String) : Nat × ResponseBody :=
  let body : ResponseBody :=
    { success := result.success
      error := if result.success then Option.none else result.error
      text := result.text
      filename := Option.some fname
      metadata := Option.some result.metadata }
  if result.success then (200, body) else (500, body)

/-- The oversize error message (line 183):
`f'Fichier trop volumineux (max {MAX_FILE_SIZE//1024//1024}MB)'`. -/
def oversizeMsg : String :=
  "Fichier trop volumineux (max " ++ toString (MAX_FILE_SIZE / 1024 / 1024) ++ "MB)"

/-- `extract_pdf_text` (lines 128-205), the POST branch: `sem` is the
semantics of `pdfplumber.open` on the uploaded bytes, `secure` is
`werkzeug.utils.secure_filename`, `now` the timestamp used inside the
extractor. -/
def extract_pdf_text (sem : List Nat → PdfDoc) (secure : String → String)
    (now : String) (req : PostRequest) : Nat × ResponseBody :=
  match req.file with
  | Option.none => (400, rejectBody "Aucun fichier fourni")
  | Option.some f =>
    if f.filename = "" then (400, rejectBody "Nom de fichier vide")
    else if allowed_file f.filename = false then
      (400, rejectBody "Seuls les fichiers PDF sont autorisés")
    else
      let file_content := f.content
      let file_size := file_content.length
      if file_size > MAX_FILE_SIZE then (400, rejectBody oversizeMsg)
      else buildResponse (extract_text_from_pdf (sem file_content) now) (secure f.filename)

/-! ## Spec-side description of the page blocks

The spec describes each page block as "a blank line, then a delimiter line
identifying the page number (`=== PAGE <n> ===`), a blank line, then the
trimmed text".  The following definitions follow those words; the refinement
theorems below compare them with the source-side `text_content`. -/

/-- Spec-side page block: a blank line, the delimiter line, a blank line, then
the trimmed text. -/
def specPageBlock (n : Nat) (cleaned : String) : String :=
  "\n" ++ ("=== PAGE " ++ toString n ++ " ===") ++ "\n" ++ "\n" ++ cleaned

/-- Spec-side block of one numbered page outcome: failed pages and pages whose
text trims to nothing contribute no block. -/
def specBlockOf : Nat × PageOutcome → Option String
  | (_, PageOutcome.pageError) => Option.none
  | (_, PageOutcome.pageText Option.none) => Option.none
  | (n, PageOutcome.pageText (Option.some t)) =>
    if pyStrip t = "" then Option.none
    else Option.some (specPageBlock n (pyStrip t))

/-- Spec-side list of blocks of a document, pages numbered from 1 in order. -/
def specBlocks (pages : List PageOutcome) : List String :=
  (List.enumFrom 1 pages).filterMap specBlockOf

theorem pageBlock_eq_specBlockOf (p : Nat × PageOutcome) :
    pageBlock p = specBlockOf p := by
  obtain ⟨n, o⟩ := p
  cases o with
  | pageError => rfl
  | pageText ot =>
    cases ot with
    | none => rfl
    | some t =>
      by_cases ht : t = ""
      · subst ht
        rfl
      · by_cases hs : pyStrip t = ""
        · simp [pageBlock, specBlockOf, ht, hs]
        · have h1 : ("\n=== PAGE " : String) = "\n" ++ "=== PAGE " := rfl
          have h2 : (" ===\n\n" : String) = " ===" ++ "\n" ++ "\n" := rfl
          simp only [pageBlock, specBlockOf, specPageBlock, ht, hs, if_false,
            if_neg ht, if_neg hs]
          rw [h1, h2]
          simp only [String.append_assoc]

theorem text_content_eq_specBlocks (pages : List PageOutcome) :
    text_content pages = specBlocks pages :=
  List.filterMap_congr (fun p _ => pageBlock_eq_specBlockOf p)

/-- The three-page document of the spec's end-to-end scenario: pages 1 and 3
yield "Hello", page 2 is blank. -/
def examplePdf : PdfDoc :=
  PdfDoc.opened
    [PageOutcome.pageText (Option.some "Hello"),
     PageOutcome.pageText (Option.some ""),
     PageOutcome.pageText (Option.some "Hello")]

/-- C1: the claim as stated is false: blocks are NOT joined as-is.  On the
spec's own three-page example the produced text is not the claimed string
(the code inserts an extra "\n" between consecutive blocks). -/
theorem join_not_as_is_on_example :
    (extract_text_from_pdf examplePdf "T").text
      ≠ "\n=== PAGE 1 ===\n\nHello\n=== PAGE 3 ===\n\nHello" := by
  decide

/-- C1 (amended): the final text is the per-page blocks (each a blank line,
the delimiter line, a blank line, then the trimmed page text) joined with one
additional newline between consecutive blocks; on the three-page example the
text is "\n=== PAGE 1 ===\n\nHello\n\n=== PAGE 3 ===\n\nHello". -/
theorem text_joins_spec_blocks_with_newline :
    (∀ (pages : List PageOutcome) (now : String),
      (extract_text_from_pdf (PdfDoc.opened pages) now).text
        = String.intercalate "\n" (specBlocks pages)) ∧
    (extract_text_from_pdf examplePdf "T").text
      = "\n=== PAGE 1 ===\n\nHello\n\n=== PAGE 3 ===\n\nHello" := by
  constructor
  · intro pages now
    show String.intercalate "\n" (text_content pages) = _
    rw [text_content_eq_specBlocks]
  · decide

/-- C2: the quality label of every extraction result is the fixed step
function of the character count alone: over 1000 characters "excellent", over
500 "good", over 100 "poor", otherwise "failed". -/
theorem quality_step_function_of_characters (doc : PdfDoc) (now : String) :
    (extract_text_from_pdf doc now).metadata.quality =
      (if 1000 < (extract_text_from_pdf doc now).metadata.characters then "excellent"
       else if 500 < (extract_text_from_pdf doc now).metadata.characters then "good"
       else if 100 < (extract_text_from_pdf doc now).metadata.characters then "poor"
       else "failed") := by
  cases doc <;> rfl

/-- C3: on every successful extraction, `characters` is the length of the
returned text and `words` is the number of whitespace-delimited tokens of
that text (zero when the text is empty). -/
theorem counts_match_text (doc : PdfDoc) (now : String)
    (h : (extract_text_from_pdf doc now).success = true) :
    (extract_text_from_pdf doc now).metadata.characters
        = (extract_text_from_pdf doc now).text.length ∧
    (extract_text_from_pdf doc now).metadata.words
        = (pySplit (extract_text_from_pdf doc now).text).length ∧
    ((extract_text_from_pdf doc now).text = "" →
      (extract_text_from_pdf doc now).metadata.words = 0) := by
  cases doc with
  | openError msg => exact absurd h (by simp [extract_text_from_pdf])
  | opened pages =>
    have hwords : (extract_text_from_pdf (PdfDoc.opened pages) now).metadata.words
        = (if String.intercalate "\n" (text_content pages) = "" then 0
           else (pySplit (String.intercalate "\n" (text_content pages))).length) := rfl
    have htext : (extract_text_from_pdf (PdfDoc.opened pages) now).text
        = String.intercalate "\n" (text_content pages) := rfl
    refine ⟨rfl, ?_, ?_⟩
    · rw [hwords, htext]
      by_cases he : String.intercalate "\n" (text_content pages) = ""
      · rw [if_pos he, he]
        rfl
      · rw [if_neg he]
    · intro he
      rw [htext] at he
      rw [hwords, if_pos he]

theorem counts_match_text_witness :
    (extract_text_from_pdf
        (PdfDoc.opened [PageOutcome.pageText (Option.some "Hello world")]) "T").success
      = true ∧
    ((extract_text_from_pdf
        (PdfDoc.opened [PageOutcome.pageText (Option.some "Hello world")]) "T").metadata.characters
        = (extract_text_from_pdf
            (PdfDoc.opened [PageOutcome.pageText (Option.some "Hello world")]) "T").text.length ∧
     (extract_text_from_pdf
        (PdfDoc.opened [PageOutcome.pageText (Option.some "Hello world")]) "T").metadata.words
        = (pySplit (extract_text_from_pdf
            (PdfDoc.opened [PageOutcome.pageText (Option.some "Hello world")]) "T").text).length ∧
     ((extract_text_from_pdf
        (PdfDoc.opened [PageOutcome.pageText (Option.some "Hello world")]) "T").text = "" →
      (extract_text_from_pdf
        (PdfDoc.opened [PageOutcome.pageText (Option.some "Hello world")]) "T").metadata.words = 0)) :=
  ⟨rfl, counts_match_text
    (PdfDoc.opened [PageOutcome.pageText (Option.some "Hello world")]) "T" rfl⟩

/-- C4: when the open/parse step fails, the whole call fails: `success=false`,
the underlying error message, empty text, and metadata with zero counters,
quality "failed", the failure method tag and the current timestamp. -/
theorem open_failure_result (msg : String) (now : String) :
    extract_text_from_pdf (PdfDoc.openError msg) now =
      { success := false
        text := ""
        error := Option.some msg
        metadata :=
          { pages := 0
            characters := 0
            words := 0
            extraction_method := "pdfplumber_failed"
            quality := "failed"
            extraction_time := now } } := rfl

/-- C5: per-page errors are swallowed: the call still succeeds, the text has
blocks only for the successfully processed non-whitespace pages in ascending
page order (the spec-side block list), and `pages` counts every page of the
document, failed ones included. -/
theorem page_errors_skipped (pages : List PageOutcome) (now : String)
    (_hmulti : 2 ≤ pages.length) (_herr : PageOutcome.pageError ∈ pages) :
    (extract_text_from_pdf (PdfDoc.opened pages) now).success = true ∧
    (extract_text_from_pdf (PdfDoc.opened pages) now).metadata.pages = pages.length ∧
    (extract_text_from_pdf (PdfDoc.opened pages) now).text
      = String.intercalate "\n" (specBlocks pages) := by
  refine ⟨rfl, rfl, ?_⟩
  show String.intercalate "\n" (text_content pages) = _
  rw [text_content_eq_specBlocks]

theorem page_errors_skipped_witness :
    2 ≤ ([PageOutcome.pageText (Option.some "Hello"),
          PageOutcome.pageError] : List PageOutcome).length ∧
    PageOutcome.pageError ∈ ([PageOutcome.pageText (Option.some "Hello"),
          PageOutcome.pageError] : List PageOutcome) ∧
    ((extract_text_from_pdf
        (PdfDoc.opened [PageOutcome.pageText (Option.some "Hello"),
          PageOutcome.pageError]) "T").success = true ∧
     (extract_text_from_pdf
        (PdfDoc.opened [PageOutcome.pageText (Option.some "Hello"),
          PageOutcome.pageError]) "T").metadata.pages
        = ([PageOutcome.pageText (Option.some "Hello"),
            PageOutcome.pageError] : List PageOutcome).length ∧
     (extract_text_from_pdf
        (PdfDoc.opened [PageOutcome.pageText (Option.some "Hello"),
          PageOutcome.pageError]) "T").text
        = String.intercalate "\n"
            (specBlocks [PageOutcome.pageText (Option.some "Hello"),
              PageOutcome.pageError])) :=
  ⟨by decide, by decide,
    page_errors_skipped
      [PageOutcome.pageText (Option.some "Hello"), PageOutcome.pageError] "T"
      (by decide) (by decide)⟩

/-- A page outcome that yields no text or only whitespace. -/
def isBlankOutcome : PageOutcome → Bool
  | PageOutcome.pageError => false
  | PageOutcome.pageText Option.none => true
  | PageOutcome.pageText (Option.some t) => pyStrip t = ""

theorem filterMap_pageBlock_blank (pages : List PageOutcome) (n : Nat)
    (h : ∀ p ∈ pages, isBlankOutcome p = true) :
    (List.enumFrom n pages).filterMap pageBlock = [] := by
  induction pages generalizing n with
  | nil => rfl
  | cons p ps ih =>
    have hp := h p (List.mem_cons_self p ps)
    have hps : ∀ q ∈ ps, isBlankOutcome q = true :=
      fun q hq => h q (List.mem_cons_of_mem p hq)
    have hblock : pageBlock (n, p) = Option.none := by
      cases p with
      | pageError => rfl
      | pageText ot =>
        cases ot with
        | none => rfl
        | some t =>
          have hs : pyStrip t = "" := by simpa [isBlankOutcome] using hp
          by_cases ht : t = ""
          · simp [pageBlock, ht]
          · simp [pageBlock, ht, hs]
    show List.filterMap pageBlock ((n, p) :: List.enumFrom (n + 1) ps) = []
    rw [List.filterMap_cons, hblock]
    exact ih (n + 1) hps

/-- C6: a document whose every page yields no text or only whitespace
produces a successful result with empty text, zero characters, zero words and
quality "failed"; whitespace-only pages contribute no block. -/
theorem whitespace_only_document (pages : List PageOutcome) (now : String)
    (h : ∀ p ∈ pages, isBlankOutcome p = true) :
    (extract_text_from_pdf (PdfDoc.opened pages) now).success = true ∧
    (extract_text_from_pdf (PdfDoc.opened pages) now).text = "" ∧
    (extract_text_from_pdf (PdfDoc.opened pages) now).metadata.characters = 0 ∧
    (extract_text_from_pdf (PdfDoc.opened pages) now).metadata.words = 0 ∧
    (extract_text_from_pdf (PdfDoc.opened pages) now).metadata.quality = "failed" := by
  have hnil : text_content pages = [] := filterMap_pageBlock_blank pages 1 h
  have hkey : String.intercalate "\n" (text_content pages) = "" := by
    rw [hnil]
    rfl
  refine ⟨rfl, ?_, ?_, ?_, ?_⟩
  · show String.intercalate "\n" (text_content pages) = ""
    exact hkey
  · show (String.intercalate "\n" (text_content pages)).length = 0
    rw [hkey]
    rfl
  · show (if String.intercalate "\n" (text_content pages) = "" then 0
          else (pySplit (String.intercalate "\n" (text_content pages))).length) = 0
    rw [if_pos hkey]
  · show qualityOf (String.intercalate "\n" (text_content pages)).length = "failed"
    rw [hkey]
    rfl

theorem whitespace_only_document_witness :
    (∀ p ∈ ([PageOutcome.pageText (Option.some "  \n\t "),
             PageOutcome.pageText Option.none] : List PageOutcome),
      isBlankOutcome p = true) ∧
    ((extract_text_from_pdf
        (PdfDoc.opened [PageOutcome.pageText (Option.some "  \n\t "),
          PageOutcome.pageText Option.none]) "T").success = true ∧
     (extract_text_from_pdf
        (PdfDoc.opened [PageOutcome.pageText (Option.some "  \n\t "),
          PageOutcome.pageText Option.none]) "T").text = "" ∧
     (extract_text_from_pdf
        (PdfDoc.opened [PageOutcome.pageText (Option.some "  \n\t "),
          PageOutcome.pageText Option.none]) "T").metadata.characters = 0 ∧
     (extract_text_from_pdf
        (PdfDoc.opened [PageOutcome.pageText (Option.some "  \n\t "),
          PageOutcome.pageText Option.none]) "T").metadata.words = 0 ∧
     (extract_text_from_pdf
        (PdfDoc.opened [PageOutcome.pageText (Option.some "  \n\t "),
          PageOutcome.pageText Option.none]) "T").metadata.quality = "failed") :=
  ⟨by decide,
    whitespace_only_document
      [PageOutcome.pageText (Option.some "  \n\t "), PageOutcome.pageText Option.none]
      "T" (by decide)⟩

/-- C7: two calls on the same document-open outcome agree on the text and on
every metadata field except the timestamp. -/
theorem extract_deterministic_except_timestamp (doc : PdfDoc) (t1 t2 : String) :
    (extract_text_from_pdf doc t1).success = (extract_text_from_pdf doc t2).success ∧
    (extract_text_from_pdf doc t1).text = (extract_text_from_pdf doc t2).text ∧
    (extract_text_from_pdf doc t1).error = (extract_text_from_pdf doc t2).error ∧
    (extract_text_from_pdf doc t1).metadata.pages
      = (extract_text_from_pdf doc t2).metadata.pages ∧
    (extract_text_from_pdf doc t1).metadata.characters
      = (extract_text_from_pdf doc t2).metadata.characters ∧
    (extract_text_from_pdf doc t1).metadata.words
      = (extract_text_from_pdf doc t2).metadata.words ∧
    (extract_text_from_pdf doc t1).metadata.extraction_method
      = (extract_text_from_pdf doc t2).metadata.extraction_method ∧
    (extract_text_from_pdf doc t1).metadata.quality
      = (extract_text_from_pdf doc t2).metadata.quality := by
  cases doc <;> exact ⟨rfl, rfl, rfl, rfl, rfl, rfl, rfl, rfl⟩

/-! ## The HTTP handler's validation layer -/

/-- A request hitting one of the four input-rejection conditions: missing
file field, empty filename, disallowed extension, or oversized body. -/
def rejectedRequest (req : PostRequest) : Prop :=
  match req.file with
  | Option.none => True
  | Option.some f =>
    f.filename = "" ∨ allowed_file f.filename = false
      ∨ MAX_FILE_SIZE < f.content.length

/-- The error message the handler produces on a rejected request. -/
def rejectionMsg (req : PostRequest) : String :=
  match req.file with
  | Option.none => "Aucun fichier fourni"
  | Option.some f =>
    if f.filename = "" then "Nom de fichier vide"
    else if allowed_file f.filename = false then "Seuls les fichiers PDF sont autorisés"
    else oversizeMsg

theorem rejected_response (sem : List Nat → PdfDoc) (secure : String → String)
    (now : String) (req : PostRequest) (h : rejectedRequest req) :
    extract_pdf_text sem secure now req = (400, rejectBody (rejectionMsg req)) := by
  match req with
  | ⟨Option.none⟩ => rfl
  | ⟨Option.some f⟩ =>
    by_cases hfn : f.filename = ""
    · simp [extract_pdf_text, rejectionMsg, hfn]
    · by_cases hext : allowed_file f.filename = false
      · simp [extract_pdf_text, rejectionMsg, hfn, hext]
      · have hsize : MAX_FILE_SIZE < f.content.length := by
          have h' : f.filename = "" ∨ allowed_file f.filename = false
              ∨ MAX_FILE_SIZE < f.content.length := h
          rcases h' with h1 | h2 | h3
          · exact absurd h1 hfn
          · exact absurd h2 hext
          · exact h3
        simp [extract_pdf_text, rejectionMsg, hfn, hext, hsize]

/-- A document-open semantics that always fails. -/
def semFail : List Nat → PdfDoc := fun _ => PdfDoc.openError "x"

/-- A document-open semantics that always opens an empty document. -/
def semOpen : List Nat → PdfDoc := fun _ => PdfDoc.opened []

/-- The identity filename sanitizer. -/
def secureId : String → String := fun s => s

/-- Canonical request with no file field. -/
def reqMissing : PostRequest := { file := Option.none }

/-- Canonical request with an empty filename. -/
def reqEmptyName : PostRequest :=
  { file := Option.some { filename := "", content := [] } }

/-- Canonical request with a disallowed extension. -/
def reqBadExt : PostRequest :=
  { file := Option.some { filename := "a.txt", content := [] } }

/-- Canonical request whose body exceeds `MAX_FILE_SIZE` by one byte. -/
def reqOversize : PostRequest :=
  { file := Option.some
      { filename := "a.pdf", content := List.replicate (MAX_FILE_SIZE + 1) 0 } }

theorem reqOversize_rejected : rejectedRequest reqOversize := by
  show ("a.pdf" : String) = "" ∨ allowed_file "a.pdf" = false
      ∨ MAX_FILE_SIZE < (List.replicate (MAX_FILE_SIZE + 1) 0).length
  right; right
  rw [List.length_replicate]
  exact Nat.lt_succ_self _

/-- C8: every request meeting one of the four input-rejection conditions gets
a 400 response with `success=false` and an error string; the response does not
depend on the PDF semantics, the sanitizer or the clock (the Extractor is
never invoked); and the four conditions produce four pairwise distinct error
messages. -/
theorem input_rejections_return_400_without_extractor
    (sem sem' : List Nat → PdfDoc) (secure secure' : String → String)
    (now now' : String) (req : PostRequest) (h : rejectedRequest req) :
    (extract_pdf_text sem secure now req).1 = 400 ∧
    (extract_pdf_text sem secure now req).2.success = false ∧
    (extract_pdf_text sem secure now req).2.error.isSome = true ∧
    extract_pdf_text sem secure now req = extract_pdf_text sem' secure' now' req ∧
    ((extract_pdf_text semFail secureId "T" reqMissing).2.error
        ≠ (extract_pdf_text semFail secureId "T" reqEmptyName).2.error ∧
     (extract_pdf_text semFail secureId "T" reqMissing).2.error
        ≠ (extract_pdf_text semFail secureId "T" reqBadExt).2.error ∧
     (extract_pdf_text semFail secureId "T" reqMissing).2.error
        ≠ (extract_pdf_text semFail secureId "T" reqOversize).2.error ∧
     (extract_pdf_text semFail secureId "T" reqEmptyName).2.error
        ≠ (extract_pdf_text semFail secureId "T" reqBadExt).2.error ∧
     (extract_pdf_text semFail secureId "T" reqEmptyName).2.error
        ≠ (extract_pdf_text semFail secureId "T" reqOversize).2.error ∧
     (extract_pdf_text semFail secureId "T" reqBadExt).2.error
        ≠ (extract_pdf_text semFail secureId "T" reqOversize).2.error) := by
  have e1 := rejected_response sem secure now req h
  have e2 := rejected_response sem' secure' now' req h
  have m1 := rejected_response semFail secureId "T" reqMissing trivial
  have m2 := rejected_response semFail secureId "T" reqEmptyName (Or.inl rfl)
  have m3 := rejected_response semFail secureId "T" reqBadExt
    (Or.inr (Or.inl (by decide)))
  have m4 := rejected_response semFail secureId "T" reqOversize reqOversize_rejected
  refine ⟨?_, ?_, ?_, ?_, ?_⟩
  · rw [e1]
  · rw [e1]
    rfl
  · rw [e1]
    rfl
  · rw [e1, e2]
  · rw [m1, m2, m3, m4]
    refine ⟨?_, ?_, ?_, ?_, ?_, ?_⟩ <;> decide

theorem input_rejections_witness :
    (extract_pdf_text semFail secureId "T" reqMissing).1 = 400 ∧
    (extract_pdf_text semFail secureId "T" reqMissing).2.success = false ∧
    (extract_pdf_text semFail secureId "T" reqMissing).2.error.isSome = true ∧
    extract_pdf_text semFail secureId "T" reqMissing
      = extract_pdf_text semOpen secureId "U" reqMissing ∧
    ((extract_pdf_text semFail secureId "T" reqMissing).2.error
        ≠ (extract_pdf_text semFail secureId "T" reqEmptyName).2.error ∧
     (extract_pdf_text semFail secureId "T" reqMissing).2.error
        ≠ (extract_pdf_text semFail secureId "T" reqBadExt).2.error ∧
     (extract_pdf_text semFail secureId "T" reqMissing).2.error
        ≠ (extract_pdf_text semFail secureId "T" reqOversize).2.error ∧
     (extract_pdf_text semFail secureId "T" reqEmptyName).2.error
        ≠ (extract_pdf_text semFail secureId "T" reqBadExt).2.error ∧
     (extract_pdf_text semFail secureId "T" reqEmptyName).2.error
        ≠ (extract_pdf_text semFail secureId "T" reqOversize).2.error ∧
     (extract_pdf_text semFail secureId "T" reqBadExt).2.error
        ≠ (extract_pdf_text semFail secureId "T" reqOversize).2.error) :=
  input_rejections_return_400_without_extractor
    semFail semOpen secureId secureId "T" "U" reqMissing trivial

/-- C9: `allowed_file` accepts a filename exactly when it contains a dot and
the substring after the last dot lowercases to "pdf"; "pdf" and "a.pdf.txt"
are rejected, "a.txt.PDF" is accepted. -/
theorem allowed_file_characterization :
    (∀ filename : String,
      allowed_file filename = true ↔
        (filename.data.contains '.' = true ∧ pyLower (rsplitLastDot filename) = "pdf")) ∧
    allowed_file "pdf" = false ∧
    allowed_file "a.pdf.txt" = false ∧
    allowed_file "a.txt.PDF" = true := by
  refine ⟨?_, by decide, by decide, by decide⟩
  intro filename
  simp [allowed_file, ALLOWED_EXTENSIONS, List.contains_cons]

/-- C10: with a present file, non-empty filename and allowed extension, a body
strictly larger than `MAX_FILE_SIZE` is rejected with a 400 oversize response
independent of the PDF semantics, while any body of at most `MAX_FILE_SIZE`
bytes (the 10 MiB boundary included) is handed to the Extractor and the
response is the mapping of its result. -/
theorem size_limit_boundary (sem sem' : List Nat → PdfDoc)
    (secure : String → String) (now now' : String) (f : UploadedFile)
    (hname : ¬ f.filename = "") (hext : allowed_file f.filename = true) :
    (MAX_FILE_SIZE < f.content.length ∧
      (extract_pdf_text sem secure now { file := Option.some f }).1 = 400 ∧
      (extract_pdf_text sem secure now { file := Option.some f }).2
        = rejectBody oversizeMsg ∧
      extract_pdf_text sem secure now { file := Option.some f }
        = extract_pdf_text sem' secure now' { file := Option.some f }) ∨
    (f.content.length ≤ MAX_FILE_SIZE ∧
      extract_pdf_text sem secure now { file := Option.some f }
        = buildResponse (extract_text_from_pdf (sem f.content) now)
            (secure f.filename)) := by
  have hext' : ¬ (allowed_file f.filename = false) := by simp [hext]
  by_cases hsz : MAX_FILE_SIZE < f.content.length
  · refine Or.inl ⟨hsz, ?_, ?_, ?_⟩ <;> simp [extract_pdf_text, hname, hext', hsz]
  · refine Or.inr ⟨Nat.le_of_not_lt hsz, ?_⟩
    simp [extract_pdf_text, hname, hext', hsz]

/-- An uploaded file whose body is exactly `MAX_FILE_SIZE` bytes. -/
def boundaryFile : UploadedFile :=
  { filename := "doc.pdf", content := List.replicate MAX_FILE_SIZE 0 }

theorem size_limit_boundary_witness :
    ¬ boundaryFile.filename = "" ∧
    allowed_file boundaryFile.filename = true ∧
    ((MAX_FILE_SIZE < boundaryFile.content.length ∧
      (extract_pdf_text semFail secureId "T" { file := Option.some boundaryFile }).1 = 400 ∧
      (extract_pdf_text semFail secureId "T" { file := Option.some boundaryFile }).2
        = rejectBody oversizeMsg ∧
      extract_pdf_text semFail secureId "T" { file := Option.some boundaryFile }
        = extract_pdf_text semOpen secureId "U" { file := Option.some boundaryFile }) ∨
    (boundaryFile.content.length ≤ MAX_FILE_SIZE ∧
      extract_pdf_text semFail secureId "T" { file := Option.some boundaryFile }
        = buildResponse (extract_text_from_pdf (semFail boundaryFile.content) "T")
            (secureId boundaryFile.filename))) :=
  ⟨by decide, by decide,
    size_limit_boundary semFail semOpen secureId "T" "U" boundaryFile
      (by decide) (by decide)⟩

end PdfExtractor
